import Mathlib

/-!
Shallow embedding of the two scripts of this repository:
  * `vapi-custom-widget.js` — the self-hosted `<vapi-widget>` custom element
    (consent gate, chat state, `sendMessage`, the streaming read loop of
    `callVapiAPI`, `toggleChat`, `render`);
  * the attribute-driven loader script (its `init` validation path).

Machine strings are Lean `String`s; the DOM, `localStorage` and the network
are passed explicitly (presence flags, association lists, and an
`Except Unit (List String)` standing for a fetch that either throws / returns
a non-ok status, or delivers a list of decoded body chunks).
-/

namespace VapiWidget

/-! ## Model of `JSON.parse` on streaming frames

The chat endpoint emits frames `data: {"id":"...","delta":"..."}`: flat JSON
objects whose fields are string literals.  `parseJson` models `JSON.parse`
restricted to that shape (an object of string-valued fields, with JSON
whitespace allowed between tokens, and the whole input consumed); every other
input — in particular every string that is not valid JSON — yields `none`,
which the read loop of `callVapiAPI` skips, exactly as its
`try { JSON.parse(...) } catch { /* skip */ }` does. -/

/-- Drop leading JSON whitespace. -/
def skipWs : List Char → List Char
  | c :: cs => if c = ' ' ∨ c = '\t' ∨ c = '\n' ∨ c = '\r' then skipWs cs else c :: cs
  | [] => []

/-- Read the characters of a JSON string literal after its opening quote,
returning the content and the rest after the closing quote.  Escapes do not
occur in the frames the endpoint emits, so a backslash is rejected. -/
def takeStr : List Char → Option (List Char × List Char)
  | [] => none
  | c :: cs =>
    if c = '"' then some ([], cs)
    else if c = '\\' then none
    else match takeStr cs with
      | some (s, rest) => some (c :: s, rest)
      | none => none

/-- Parse `"key" : "value"` pairs separated by `,` up to and including the
closing `}`.  The fuel argument bounds the recursion by the input length. -/
def parsePairs : Nat → List Char → Option (List (String × String) × List Char)
  | 0, _ => none
  | fuel + 1, cs =>
    match skipWs cs with
    | '"' :: cs1 =>
      match takeStr cs1 with
      | some (k, cs2) =>
        match skipWs cs2 with
        | ':' :: cs3 =>
          match skipWs cs3 with
          | '"' :: cs4 =>
            match takeStr cs4 with
            | some (v, cs5) =>
              match skipWs cs5 with
              | ',' :: cs6 =>
                match parsePairs fuel cs6 with
                | some (ps, rest) => some ((String.mk k, String.mk v) :: ps, rest)
                | none => none
              | '}' :: cs6 => some ([(String.mk k, String.mk v)], cs6)
              | _ => none
            | none => none
          | _ => none
        | _ => none
      | none => none
    | _ => none

/-- Model of `JSON.parse` on a frame payload: a flat object of string fields,
`none` on anything malformed (matching the `catch` branch of the read loop). -/
def parseJson (s : String) : Option (List (String × String)) :=
  match skipWs s.data with
  | '{' :: rest =>
    match skipWs rest with
    | '}' :: rest2 => if skipWs rest2 = [] then some [] else none
    | _ =>
      match parsePairs (s.length + 1) rest with
      | some (ps, rest2) => if skipWs rest2 = [] then some ps else none
      | none => none
  | _ => none

/-- JavaScript property access `obj.k` on the parsed object: the last binding
of a duplicated key wins, as in `JSON.parse`. -/
def getField (ps : List (String × String)) (k : String) : Option String :=
  ps.foldl (fun acc p => if p.1 = k then some p.2 else acc) none

/-! ## Models of the JavaScript string builtins used by the read loop

`String.splitOn`, `String.trim` and `String.startsWith` of the Lean library
are defined by well-founded recursion over byte positions and do not reduce
inside the kernel, so the JS builtins `split('\n')`, `trim()`,
`startsWith('data: ')` and `slice(6)` are modelled by structural functions
over the character list of the string. -/

/-- Model of JavaScript `str.split('\n')`: the maximal (possibly empty)
segments between newline characters. -/
def splitNl : List Char → List (List Char)
  | [] => [[]]
  | c :: cs =>
    if c = '\n' then [] :: splitNl cs
    else match splitNl cs with
      | l :: ls => (c :: l) :: ls
      | [] => [[c]]

/-- Model of JavaScript `str.trim()` (the whitespace actually occurring in
the stream is ASCII). -/
def trimChars (cs : List Char) : List Char :=
  ((cs.dropWhile Char.isWhitespace).reverse.dropWhile Char.isWhitespace).reverse

/-- Model of `chunk.split('\n').filter(line => line.trim())` of the read loop:
the lines of one decoded chunk, dropping whitespace-only lines. -/
def linesOf (chunk : String) : List String :=
  ((splitNl chunk.data).map String.mk).filter (fun l => trimChars l.data ≠ [])

/-- JavaScript `value.trim()` on a Lean `String`. -/
def jsTrim (s : String) : String := String.mk (trimChars s.data)

/-! ## The streaming accumulator of `callVapiAPI` -/

/-- The mutable locals of the read loop of `callVapiAPI`:
`let fullContent = ''` and `let chatId = null`. -/
structure StreamAcc where
  fullContent : String
  chatId : Option String
deriving DecidableEq, Repr

/-- The accumulator at loop entry. -/
def initAcc : StreamAcc := { fullContent := "", chatId := none }

/-- The body of the loop over parsed frames: capture the chat id on
`data.id && !chatId` (JS truthiness: a `null` `chatId` and a non-empty `id`),
and append `data.delta` to `fullContent` when truthy (non-empty). -/
def processObj (st : StreamAcc) (data : List (String × String)) : StreamAcc :=
  let st1 :=
    match getField data "id" with
    | some i => if i ≠ "" ∧ st.chatId = none then { st with chatId := some i } else st
    | none => st
  match getField data "delta" with
  | some d => if d ≠ "" then { st1 with fullContent := st1.fullContent ++ d } else st1
  | none => st1

/-- One iteration of `for (const line of lines)`: lines with the `data: `
prefix have their payload (`line.slice(6)`) parsed; a parse failure is
skipped (`catch { }`), as is a line without the prefix. -/
def processLine (st : StreamAcc) (line : String) : StreamAcc :=
  if "data: ".data.isPrefixOf line.data then
    match parseJson (String.mk (line.data.drop 6)) with
    | some data => processObj st data
    | none => st
  else st

/-- Processing of one decoded chunk: split into lines, filter blank lines,
fold the per-line step.  There is no carry-over of a partial line into the
next chunk. -/
def chunkStep (st : StreamAcc) (chunk : String) : StreamAcc :=
  (linesOf chunk).foldl processLine st

/-- The whole read loop of `callVapiAPI` over the decoded body chunks,
from a given accumulator state. -/
def processChunksFrom (st : StreamAcc) (chunks : List String) : StreamAcc :=
  chunks.foldl chunkStep st

/-- The whole read loop of `callVapiAPI`, returning
`{ content: fullContent, chatId }`. -/
def processChunks (chunks : List String) : StreamAcc :=
  processChunksFrom initAcc chunks

/-! ## Widget data model -/

/-- Message roles of the transcript. -/
inductive Role where
  | user
  | assistant
deriving DecidableEq, Repr

/-- A transcript entry `{ role, content }`. -/
structure ChatMessage where
  role : Role
  content : String
deriving DecidableEq, Repr

/-- The instance fields set in the constructor of `VapiCustomWidget`. -/
structure WidgetState where
  isOpen : Bool
  messages : List ChatMessage
  isLoading : Bool
  previousChatId : Option String
  consentGiven : Bool
deriving DecidableEq, Repr

/-- The state a freshly constructed widget starts in. -/
def initialState : WidgetState :=
  { isOpen := false, messages := [], isLoading := false,
    previousChatId := none, consentGiven := false }

/-- The configuration fields of `getConfig` that the verified behaviour
depends on.  `getAttr` yields `none` when the attribute is absent or the
empty string (the `||` fallback), so `publicKey`/`assistantId` are `none`
exactly when `!config.publicKey` / `!config.assistantId` holds in the code. -/
structure Config where
  publicKey : Option String
  assistantId : Option String
  requireConsent : Bool
  localStorageKey : String
deriving DecidableEq, Repr

/-- Events dispatched by the widget (`chat-open`, `chat-close`, `message`
with its detail, `error`). -/
inductive WEvent where
  | chatOpen
  | chatClose
  | message (role : Role) (content : String)
  | error
deriving DecidableEq, Repr

/-! ## Consent gate

`localStorage` is modelled as an association list of key/value pairs, with a
`storageOk` flag standing for whether the storage access throws (the `try` /
`catch` around `getItem` / `setItem`). -/

/-- Model of `localStorage.getItem`. -/
def getItem (store : List (String × String)) (key : String) : Option String :=
  match store with
  | [] => none
  | p :: rest => if p.1 = key then some p.2 else getItem rest key

/-- Model of `localStorage.setItem`. -/
def setItem (store : List (String × String)) (key v : String) :
    List (String × String) :=
  match store with
  | [] => [(key, v)]
  | p :: rest => if p.1 = key then (key, v) :: rest else p :: setItem rest key v

/-- Model of `checkConsent`: without `require-consent` the consent is granted
unconditionally; otherwise it is granted exactly when the stored value under
the configured key is the string `"true"`, and a throwing storage read
(`storageOk = false`) leaves it denied. -/
def checkConsent (config : Config) (storageOk : Bool)
    (store : List (String × String)) : Bool :=
  if !config.requireConsent then true
  else if storageOk then decide (getItem store config.localStorageKey = some "true")
  else false

/-- Result of `giveConsent`: the in-memory flag and the storage contents. -/
structure ConsentResult where
  consentGiven : Bool
  store : List (String × String)
deriving DecidableEq, Repr

/-- Model of `giveConsent`: set `consentGiven = true`, then try to persist `"true"`
under the configured key; a throwing write (`storageOk = false`) is only
logged and the flag still advances. -/
def giveConsent (config : Config) (storageOk : Bool)
    (store : List (String × String)) : ConsentResult :=
  { consentGiven := true,
    store := if storageOk then setItem store config.localStorageKey "true" else store }

/-! ## Render: chat area versus consent screen -/

/-- The body `render` places between header and footer. -/
inductive ChatBody where
  | consentScreen
  | chatArea
deriving DecidableEq, Repr

/-- The choice in `render`:
`config.requireConsent && !this.consentGiven ? renderConsentScreen : renderChatArea`. -/
def renderBody (config : Config) (st : WidgetState) : ChatBody :=
  if config.requireConsent && !st.consentGiven then .consentScreen else .chatArea

/-- Whether the rendered body contains the `.chat-messages` list
(`renderChatArea` does, `renderConsentScreen` does not). -/
def bodyHasMessageList : ChatBody → Bool
  | .consentScreen => false
  | .chatArea => true

/-- Whether the rendered body contains the `.chat-input` textarea. -/
def bodyHasChatInput : ChatBody → Bool
  | .consentScreen => false
  | .chatArea => true

/-- Whether the rendered body contains the `.chat-send-button`. -/
def bodyHasSendButton : ChatBody → Bool
  | .consentScreen => false
  | .chatArea => true

/-! ## `toggleChat` -/

/-- Result of one `toggleChat` call: the new state and the one event the
call dispatches. -/
structure ToggleResult where
  state : WidgetState
  event : WEvent
deriving DecidableEq, Repr

/-- Model of `toggleChat(state = null)`: set `isOpen` to the argument when non-null,
else flip it; then dispatch `chat-open` or `chat-close` according to the new
`isOpen` — unconditionally, whether or not the state changed. -/
def toggleChat (st : WidgetState) (arg : Option Bool) : ToggleResult :=
  let newOpen := match arg with | some b => b | none => !st.isOpen
  { state := { st with isOpen := newOpen },
    event := if newOpen then .chatOpen else .chatClose }

/-! ## `sendMessage` and the request payload -/

/-- The request body of `callVapiAPI`
(`{assistantId, input, stream: true, previousChatId?}`; the optional
`assistantOverrides` field never influences the verified behaviour and is
not modelled). -/
structure Payload where
  assistantId : String
  input : String
  stream : Bool
  previousChatId : Option String
deriving DecidableEq, Repr

/-- Payload construction at the top of `callVapiAPI`: `previousChatId` is
added only when truthy (non-empty). -/
def buildPayload (prev : Option String) (message aid : String) : Payload :=
  { assistantId := aid, input := message, stream := true,
    previousChatId :=
      match prev with
      | some p => if p ≠ "" then some p else none
      | none => none }

/-- Result of one `sendMessage` call: the state after the call, the events
dispatched in order, and the request issued (`none` when no fetch
happened). -/
structure SendResult where
  state : WidgetState
  events : List WEvent
  request : Option Payload
deriving DecidableEq, Repr

/-- Model of `sendMessage`, with the DOM input modelled by `inputPresent` (whether
`querySelector('.chat-input')` finds the textarea — it exists only when the
chat area was rendered) and `inputValue` (its current value), and the fetch
of `callVapiAPI` modelled by `net` (`.error` for a thrown fetch or a
non-`ok` status, `.ok chunks` for the decoded body chunks).

Mirrors the source order: missing input → return; blank trimmed message or
`isLoading` → return; missing `publicKey` / `assistantId` → log and return;
push the user message, set `isLoading`, dispatch `message`; then either the
streamed response is finalized as an assistant message (updating
`previousChatId` when the stream carried an id) and `message` dispatched, or
the catch branch appends a fixed apology and dispatches `error`; finally
`isLoading` is cleared. -/
def sendMessage (st : WidgetState) (inputPresent : Bool) (inputValue : String)
    (config : Config) (net : Except Unit (List String)) : SendResult :=
  if !inputPresent then { state := st, events := [], request := none }
  else
    let message := jsTrim inputValue
    if message = "" ∨ st.isLoading then { state := st, events := [], request := none }
    else
      match config.publicKey with
      | none => { state := st, events := [], request := none }
      | some _ =>
        match config.assistantId with
        | none => { state := st, events := [], request := none }
        | some aid =>
          let st1 := { st with
            messages := st.messages ++ [({ role := .user, content := message } : ChatMessage)],
            isLoading := true }
          let payload := buildPayload st.previousChatId message aid
          match net with
          | .ok chunks =>
            let res := processChunks chunks
            let st2 := { st1 with
              messages := st1.messages ++
                [({ role := .assistant, content := res.fullContent } : ChatMessage)] }
            let st3 :=
              match res.chatId with
              | some cid => if cid ≠ "" then { st2 with previousChatId := some cid } else st2
              | none => st2
            { state := { st3 with isLoading := false },
              events := [.message .user message, .message .assistant res.fullContent],
              request := some payload }
          | .error _ =>
            { state := { st1 with
                messages := st1.messages ++
                  [({ role := .assistant,
                      content := "Sorry, I encountered an error. Please try again." } :
                    ChatMessage)],
                isLoading := false },
              events := [.message .user message, .error],
              request := some payload }

/-! ## The loader script (`init`) -/

/-- The loader's configuration: `data-public-key` / `data-assistant-id`
read from the script tag with `|| ''`, so `""` means absent. -/
structure LoaderConfig where
  publicKey : String
  assistantId : String
deriving DecidableEq, Repr

/-- Observable effects of the loader's `init`. -/
structure InitResult where
  loggedError : Bool
  stylesInjected : Bool
  scriptRequested : Bool
  widgetCreated : Bool
deriving DecidableEq, Repr

/-- The loader's `init`: validate the two required identifiers (logging and
returning before any other effect when one is missing), then inject styles,
load the vendor script (`scriptLoadOk` models whether that promise
resolves; a rejection is caught and logged) and create the `vapi-widget`
element. -/
def loaderInit (config : LoaderConfig) (scriptLoadOk : Bool) : InitResult :=
  if config.publicKey = "" then
    { loggedError := true, stylesInjected := false, scriptRequested := false,
      widgetCreated := false }
  else if config.assistantId = "" then
    { loggedError := true, stylesInjected := false, scriptRequested := false,
      widgetCreated := false }
  else if scriptLoadOk then
    { loggedError := false, stylesInjected := true, scriptRequested := true,
      widgetCreated := true }
  else
    { loggedError := true, stylesInjected := true, scriptRequested := true,
      widgetCreated := false }

/-! ## Spec-side helpers for the streaming theorems -/

/-- The decoded meaning of one line of the stream: the parsed frame when the
line has the `data: ` prefix and a valid payload, `none` otherwise. -/
def decodeLine (l : String) : Option (List (String × String)) :=
  if "data: ".data.isPrefixOf l.data then parseJson (String.mk (l.data.drop 6)) else none

/-- The text a frame contributes to `fullContent` (`""` when it has no
`delta` field). -/
def deltaOf (data : List (String × String)) : String :=
  (getField data "delta").getD ""

/-- The chat id a frame offers: its `id` field when that is non-empty. -/
def idOf (data : List (String × String)) : Option String :=
  match getField data "id" with
  | some i => if i ≠ "" then some i else none
  | none => none

/-- Concatenation of a list of strings in order. -/
def joinAll : List String → String
  | [] => ""
  | s :: rest => s ++ joinAll rest

/-- First-wins choice, as the loop's `if (data.id && !chatId)` realizes it. -/
def orElseO (a b : Option String) : Option String :=
  match a with
  | some c => some c
  | none => b

/-- A line of the stream paired with the frame it decodes to. -/
def DecodesTo (l : String) (data : List (String × String)) : Prop :=
  decodeLine l = some data

/-! ## Lemmas about the read loop -/

theorem processLine_eq_decode (st : StreamAcc) (l : String) :
    processLine st l =
      match decodeLine l with
      | some data => processObj st data
      | none => st := by
  unfold processLine decodeLine
  by_cases h : "data: ".data.isPrefixOf l.data <;> simp [h]

theorem processLine_of_decode_none (st : StreamAcc) (l : String)
    (h : decodeLine l = none) : processLine st l = st := by
  rw [processLine_eq_decode, h]

theorem processLine_of_decode_some (st : StreamAcc) (l : String)
    (data : List (String × String)) (h : decodeLine l = some data) :
    processLine st l = processObj st data := by
  rw [processLine_eq_decode, h]

theorem processObj_fullContent (st : StreamAcc) (data : List (String × String)) :
    (processObj st data).fullContent = st.fullContent ++ deltaOf data := by
  unfold processObj deltaOf
  cases hid : getField data "id" <;> cases hd : getField data "delta" <;>
    simp [hid, hd, String.append_empty] <;> split_ifs <;>
    simp_all [String.append_empty]

theorem processObj_chatId (st : StreamAcc) (data : List (String × String)) :
    (processObj st data).chatId = orElseO st.chatId (idOf data) := by
  unfold processObj idOf orElseO
  cases hst : st.chatId <;> cases hid : getField data "id" <;>
    cases hd : getField data "delta" <;> simp [hid, hd, hst] <;> split_ifs <;>
    simp_all

theorem orElseO_none_right (a : Option String) : orElseO a none = a := by
  cases a <;> rfl

theorem orElseO_assoc (a b c : Option String) :
    orElseO (orElseO a b) c = orElseO a (orElseO b c) := by
  cases a <;> cases b <;> rfl

/-- The decoded fold: a run of lines that decode to the frames `objs`
concatenates their deltas onto `fullContent` and fills `chatId` with the
first non-empty id, keeping an already-captured id. -/
theorem foldl_processLine_spec (ls : List String)
    (objs : List (List (String × String)))
    (h : List.Forall₂ DecodesTo ls objs) (st : StreamAcc) :
    ls.foldl processLine st =
      { fullContent := st.fullContent ++ joinAll (objs.map deltaOf),
        chatId := orElseO st.chatId (objs.findSome? idOf) } := by
  induction h generalizing st with
  | nil =>
    simp [joinAll, orElseO_none_right, String.append_empty]
  | cons hlo _ ih =>
    rename_i l data ls2 objs2 _
    rw [List.foldl_cons, processLine_of_decode_some st l data hlo, ih]
    cases hacc : processObj st data with
    | mk fc cid =>
      have hfc : fc = st.fullContent ++ deltaOf data := by
        have := processObj_fullContent st data
        rw [hacc] at this
        exact this
      have hcid : cid = orElseO st.chatId (idOf data) := by
        have := processObj_chatId st data
        rw [hacc] at this
        exact this
      subst hfc hcid
      simp only [List.map_cons, joinAll, List.findSome?_cons]
      rw [String.append_assoc, orElseO_assoc]
      cases idOf data <;> rfl

/-- Processing chunk-by-chunk equals processing the flattened filtered
lines. -/
theorem processChunksFrom_eq_lines (st : StreamAcc) (chunks : List String) :
    processChunksFrom st chunks = (chunks.flatMap linesOf).foldl processLine st := by
  induction chunks generalizing st with
  | nil => rfl
  | cons c cs ih =>
    show processChunksFrom (chunkStep st c) cs = _
    rw [ih]
    rw [List.flatMap_cons, List.foldl_append]
    rfl

/-- An id offered by a frame is never the empty string. -/
theorem idOf_ne_empty (data : List (String × String)) (i : String)
    (h : idOf data = some i) : i ≠ "" := by
  unfold idOf at h
  cases hid : getField data "id" with
  | none => rw [hid] at h; exact absurd h (by simp)
  | some j =>
    rw [hid] at h
    by_cases hj : j ≠ "" <;> simp [hj] at h
    subst h; exact hj

/-- The first id found over a list of frames is never the empty string. -/
theorem findSome?_idOf_ne_empty (objs : List (List (String × String)))
    (i : String) (h : objs.findSome? idOf = some i) : i ≠ "" := by
  induction objs with
  | nil => simp [List.findSome?] at h
  | cons o os ih =>
    rw [List.findSome?_cons] at h
    cases ho : idOf o with
    | some j => rw [ho] at h; cases h; exact idOf_ne_empty o i ho
    | none => rw [ho] at h; exact ih h

/-- Lines whose decoded images are the given frames, in the form of one
equation of lists (used to discharge `Forall₂` hypotheses by computation). -/
theorem forall₂_of_map_decode (ls : List String)
    (objs : List (List (String × String)))
    (h : ls.map decodeLine = objs.map some) : List.Forall₂ DecodesTo ls objs := by
  induction ls generalizing objs with
  | nil =>
    cases objs with
    | nil => exact List.Forall₂.nil
    | cons => simp at h
  | cons l ls ih =>
    cases objs with
    | nil => simp at h
    | cons o os =>
      simp only [List.map_cons, List.cons.injEq] at h
      exact List.Forall₂.cons h.1 (ih os h.2)

theorem empty_append_str (s : String) : "" ++ s = s := by
  apply String.ext
  simp [String.data_append]

/-- The value of the whole read loop on a decoded stream. -/
theorem processChunks_spec (chunks : List String)
    (objs : List (List (String × String)))
    (hdec : List.Forall₂ DecodesTo (chunks.flatMap linesOf) objs) :
    processChunks chunks =
      { fullContent := joinAll (objs.map deltaOf),
        chatId := objs.findSome? idOf } := by
  unfold processChunks
  rw [processChunksFrom_eq_lines, foldl_processLine_spec _ _ hdec]
  show ({ fullContent := "" ++ _, chatId := orElseO none _ } : StreamAcc) = _
  rw [empty_append_str]
  rfl

/-- Reading `getItem` after `setItem` of the same key yields the written value. -/
theorem getItem_setItem (store : List (String × String)) (key v : String) :
    getItem (setItem store key v) key = some v := by
  induction store with
  | nil => simp [setItem, getItem]
  | cons p rest ih =>
    by_cases hp : p.1 = key <;> simp [setItem, getItem, hp, ih]

/-- A fold of the per-line step over undecodable lines is the identity. -/
theorem foldl_processLine_of_none (ls : List String)
    (h : ∀ l ∈ ls, decodeLine l = none) (st : StreamAcc) :
    ls.foldl processLine st = st := by
  induction ls generalizing st with
  | nil => rfl
  | cons l ls ih =>
    rw [List.foldl_cons, processLine_of_decode_none st l (h l (by simp))]
    exact ih (fun x hx => h x (by simp [hx])) st

/-- A chunk none of whose lines decodes leaves the accumulator unchanged. -/
theorem chunkStep_of_none (st : StreamAcc) (c : String)
    (h : ∀ l ∈ linesOf c, decodeLine l = none) : chunkStep st c = st :=
  foldl_processLine_of_none (linesOf c) h st

/-! ## Claim theorems -/

/-- C3: for every configuration in which either required identifier is
absent, the loader's `init` logs an error and aborts before injecting
styles, requesting the vendor script or creating the chat element, and the
widget's `sendMessage` returns before any fetch, leaving state, events and
request untouched. -/
theorem missing_identifier_aborts
    (lcfg : LoaderConfig) (scriptLoadOk : Bool)
    (c : Config) (st : WidgetState) (inputPresent : Bool) (v : String)
    (net : Except Unit (List String))
    (hmissL : lcfg.publicKey = "" ∨ lcfg.assistantId = "")
    (hmissW : c.publicKey = none ∨ c.assistantId = none) :
    loaderInit lcfg scriptLoadOk =
      { loggedError := true, stylesInjected := false, scriptRequested := false,
        widgetCreated := false } ∧
    sendMessage st inputPresent v c net =
      { state := st, events := [], request := none } := by
  constructor
  · unfold loaderInit
    rcases hmissL with h | h <;> split_ifs <;> simp_all
  · unfold sendMessage
    cases inputPresent with
    | false => rfl
    | true =>
      by_cases hm : jsTrim v = "" ∨ st.isLoading = true
      · simp [hm]
      · rcases hmissW with h | h
        · simp [hm, h]
        · cases hc : c.publicKey <;> simp [hm, h, hc]

/-- C3 witness: a loader config missing the public key and a widget config
missing the assistant id both abort with no effect. -/
theorem missing_identifier_aborts_witness :
    loaderInit { publicKey := "", assistantId := "aid" } true =
      { loggedError := true, stylesInjected := false, scriptRequested := false,
        widgetCreated := false } ∧
    sendMessage initialState true "Hello"
      { publicKey := some "pk", assistantId := none, requireConsent := false,
        localStorageKey := "k" } (Except.error ()) =
      { state := initialState, events := [], request := none } :=
  missing_identifier_aborts { publicKey := "", assistantId := "aid" } true
    { publicKey := some "pk", assistantId := none, requireConsent := false,
      localStorageKey := "k" }
    initialState true "Hello" (Except.error ()) (Or.inl rfl) (Or.inr rfl)

/-- C4: `checkConsent` yields granted unconditionally when consent is not
required; when required and the storage read succeeds it is granted exactly
when the stored value under the configured key is the string `"true"`; and
a throwing storage read leaves it denied. -/
theorem checkConsent_spec (pk aid : Option String) (key : String)
    (ok : Bool) (store : List (String × String)) :
    checkConsent ⟨pk, aid, false, key⟩ ok store = true ∧
    checkConsent ⟨pk, aid, true, key⟩ true store
      = decide (getItem store key = some "true") ∧
    checkConsent ⟨pk, aid, true, key⟩ false store = false :=
  ⟨rfl, rfl, rfl⟩

/-- C5: `giveConsent` advances the in-memory flag to granted and persists
the literal `"true"` under the configured key; when the write throws the
failure is swallowed, the store is unchanged and the flag still advances;
and after a successful grant, `checkConsent` over the same key yields
granted. -/
theorem giveConsent_spec (pk aid : Option String) (key : String)
    (store : List (String × String)) :
    (giveConsent ⟨pk, aid, true, key⟩ true store).consentGiven = true ∧
    (giveConsent ⟨pk, aid, true, key⟩ true store).store = setItem store key "true" ∧
    getItem (giveConsent ⟨pk, aid, true, key⟩ true store).store key = some "true" ∧
    checkConsent ⟨pk, aid, true, key⟩ true
      (giveConsent ⟨pk, aid, true, key⟩ true store).store = true ∧
    (giveConsent ⟨pk, aid, true, key⟩ false store).consentGiven = true ∧
    (giveConsent ⟨pk, aid, true, key⟩ false store).store = store := by
  refine ⟨rfl, rfl, getItem_setItem store key "true", ?_, rfl, rfl⟩
  show checkConsent _ true (setItem store key "true") = true
  unfold checkConsent
  simp [getItem_setItem store key "true"]

/-- C6: a `sendMessage` whose input trims to the empty string, or issued
while `isLoading` is set, returns without appending a message, without a
network request, without events, and without changing the widget state. -/
theorem sendMessage_noop_blank_or_loading (st : WidgetState) (v : String)
    (c : Config) (net : Except Unit (List String))
    (h : jsTrim v = "" ∨ st.isLoading = true) :
    sendMessage st true v c net = { state := st, events := [], request := none } := by
  unfold sendMessage
  simp [h]

/-- C6 witness: a whitespace-only input, and a send during an in-flight
send, are both ignored. -/
theorem sendMessage_noop_blank_or_loading_witness :
    sendMessage initialState true "   "
      { publicKey := some "pk", assistantId := some "aid", requireConsent := false,
        localStorageKey := "k" } (Except.ok []) =
      { state := initialState, events := [], request := none } ∧
    sendMessage { initialState with isLoading := true } true "Hello"
      { publicKey := some "pk", assistantId := some "aid", requireConsent := false,
        localStorageKey := "k" } (Except.ok []) =
      { state := { initialState with isLoading := true }, events := [], request := none } :=
  ⟨sendMessage_noop_blank_or_loading initialState "   "
      { publicKey := some "pk", assistantId := some "aid", requireConsent := false,
        localStorageKey := "k" } (Except.ok []) (Or.inl (by decide)),
   sendMessage_noop_blank_or_loading { initialState with isLoading := true } "Hello"
      { publicKey := some "pk", assistantId := some "aid", requireConsent := false,
        localStorageKey := "k" } (Except.ok []) (Or.inr rfl)⟩

/-- C7 counterexample: the claim that repeated toggles to the same state
dispatch no duplicate events is false — `toggleChat(false)` on an
already-closed widget dispatches `chat-close` again. -/
theorem toggleChat_duplicate_close_events :
    initialState.isOpen = false ∧
    (toggleChat initialState (some false)).state.isOpen = false ∧
    (toggleChat initialState (some false)).event = WEvent.chatClose ∧
    (toggleChat (toggleChat initialState (some false)).state (some false)).event
      = WEvent.chatClose := by
  decide

/-- C7 amended: from a closed widget, toggling open and then closed
dispatches exactly `chat-open` then `chat-close`, in that order; but every
`toggleChat` call dispatches the event matching the resulting state
unconditionally, so a toggle to the already-current state (such as closing
an already-closed widget) dispatches that event again. -/
theorem toggleChat_open_close_events (st : WidgetState) (arg : Option Bool)
    (h : st.isOpen = false) :
    (toggleChat st none).event = WEvent.chatOpen ∧
    (toggleChat st none).state.isOpen = true ∧
    (toggleChat (toggleChat st none).state none).event = WEvent.chatClose ∧
    (toggleChat (toggleChat st none).state none).state.isOpen = false ∧
    (toggleChat st arg).event =
      (if (toggleChat st arg).state.isOpen then WEvent.chatOpen else WEvent.chatClose) := by
  unfold toggleChat
  cases arg <;> simp [h]

/-- C7 witness: the amended behaviour at the initial (closed) state. -/
theorem toggleChat_open_close_events_witness :
    (toggleChat initialState none).event = WEvent.chatOpen ∧
    (toggleChat initialState none).state.isOpen = true ∧
    (toggleChat (toggleChat initialState none).state none).event = WEvent.chatClose ∧
    (toggleChat (toggleChat initialState none).state none).state.isOpen = false ∧
    (toggleChat initialState (some false)).event =
      (if (toggleChat initialState (some false)).state.isOpen then WEvent.chatOpen
       else WEvent.chatClose) :=
  toggleChat_open_close_events initialState (some false) rfl

/-- C8: with `require-consent` set and consent not given, `render` places
the consent screen instead of the chat area — no message list, no input
box, no send button — and `sendMessage` (whose input lookup fails on the
consent screen) can dispatch no `message` event and changes nothing; with
`require-consent` absent the chat area, with its input, renders
immediately. -/
theorem consent_gate_render (pk aid : Option String) (key v : String)
    (o ld given : Bool) (msgs : List ChatMessage) (prev : Option String)
    (net : Except Unit (List String)) :
    renderBody ⟨pk, aid, true, key⟩ ⟨o, msgs, ld, prev, false⟩
      = ChatBody.consentScreen ∧
    bodyHasMessageList ChatBody.consentScreen = false ∧
    bodyHasChatInput ChatBody.consentScreen = false ∧
    bodyHasSendButton ChatBody.consentScreen = false ∧
    sendMessage ⟨o, msgs, ld, prev, false⟩
      (bodyHasChatInput (renderBody ⟨pk, aid, true, key⟩ ⟨o, msgs, ld, prev, false⟩))
      v ⟨pk, aid, true, key⟩ net =
      { state := ⟨o, msgs, ld, prev, false⟩, events := [], request := none } ∧
    renderBody ⟨pk, aid, false, key⟩ ⟨o, msgs, ld, prev, given⟩ = ChatBody.chatArea ∧
    bodyHasChatInput (renderBody ⟨pk, aid, false, key⟩ ⟨o, msgs, ld, prev, given⟩)
      = true :=
  ⟨rfl, rfl, rfl, rfl, rfl, rfl, rfl⟩

/-- C1: a `sendMessage` over a stream of well-formed frames finalizes an
assistant message whose content is the concatenation of the frames' deltas
in arrival order, updates `previousChatId` from the stream's id, and the
next request's payload carries that id as `previousChatId`. -/
theorem sendMessage_finalizes_stream
    (st : WidgetState) (c : Config) (pk aid v v2 : String)
    (chunks : List String) (objs : List (List (String × String))) (i : String)
    (net2 : Except Unit (List String))
    (hpk : c.publicKey = some pk) (haid : c.assistantId = some aid)
    (hv : jsTrim v ≠ "") (hld : st.isLoading = false)
    (hdec : List.Forall₂ DecodesTo (chunks.flatMap linesOf) objs)
    (hid : objs.findSome? idOf = some i)
    (hv2 : jsTrim v2 ≠ "") :
    sendMessage st true v c (Except.ok chunks) =
      { state := { st with
          messages := st.messages ++
            [⟨Role.user, jsTrim v⟩, ⟨Role.assistant, joinAll (objs.map deltaOf)⟩],
          isLoading := false, previousChatId := some i },
        events := [WEvent.message Role.user (jsTrim v),
          WEvent.message Role.assistant (joinAll (objs.map deltaOf))],
        request := some (buildPayload st.previousChatId (jsTrim v) aid) } ∧
    (sendMessage (sendMessage st true v c (Except.ok chunks)).state true v2 c
        net2).request =
      some ⟨aid, jsTrim v2, true, some i⟩ := by
  have hne : i ≠ "" := findSome?_idOf_ne_empty objs i hid
  have hres := processChunks_spec chunks objs hdec
  have hmain : sendMessage st true v c (Except.ok chunks) =
      { state := { st with
          messages := st.messages ++
            [⟨Role.user, jsTrim v⟩, ⟨Role.assistant, joinAll (objs.map deltaOf)⟩],
          isLoading := false, previousChatId := some i },
        events := [WEvent.message Role.user (jsTrim v),
          WEvent.message Role.assistant (joinAll (objs.map deltaOf))],
        request := some (buildPayload st.previousChatId (jsTrim v) aid) } := by
    unfold sendMessage
    simp [hpk, haid, hres, hid, hne, hv, hld]
  refine ⟨hmain, ?_⟩
  rw [hmain]
  unfold sendMessage
  cases net2 <;> simp [hpk, haid, hv2, hne, buildPayload]

/-- C1 witness: the spec's synthetic stream finalizes `"Hello"`, stores the
continuation token `"c1"`, and the next request carries
`previousChatId = "c1"`. -/
theorem sendMessage_finalizes_stream_witness :
    (sendMessage initialState true "Hi" ⟨some "pk", some "aid", false, "k"⟩
        (Except.ok ["data: \x7b\"delta\":\"Hel\"\x7d\n",
          "data: \x7b\"delta\":\"lo\"\x7d\n",
          "data: \x7b\"id\":\"c1\"\x7d\n"])).state.messages =
      [⟨Role.user, "Hi"⟩, ⟨Role.assistant, "Hello"⟩] ∧
    (sendMessage initialState true "Hi" ⟨some "pk", some "aid", false, "k"⟩
        (Except.ok ["data: \x7b\"delta\":\"Hel\"\x7d\n",
          "data: \x7b\"delta\":\"lo\"\x7d\n",
          "data: \x7b\"id\":\"c1\"\x7d\n"])).state.previousChatId = some "c1" ∧
    (sendMessage
        (sendMessage initialState true "Hi" ⟨some "pk", some "aid", false, "k"⟩
          (Except.ok ["data: \x7b\"delta\":\"Hel\"\x7d\n",
            "data: \x7b\"delta\":\"lo\"\x7d\n",
            "data: \x7b\"id\":\"c1\"\x7d\n"])).state
        true "More" ⟨some "pk", some "aid", false, "k"⟩ (Except.error ())).request =
      some ⟨"aid", "More", true, some "c1"⟩ := by
  have h := sendMessage_finalizes_stream initialState
    ⟨some "pk", some "aid", false, "k"⟩ "pk" "aid" "Hi" "More"
    ["data: \x7b\"delta\":\"Hel\"\x7d\n", "data: \x7b\"delta\":\"lo\"\x7d\n",
      "data: \x7b\"id\":\"c1\"\x7d\n"]
    [[("delta", "Hel")], [("delta", "lo")], [("id", "c1")]] "c1" (Except.error ())
    rfl rfl (by decide) rfl (forall₂_of_map_decode _ _ (by decide)) (by decide)
    (by decide)
  refine ⟨?_, ?_, h.2.trans (by decide)⟩
  · rw [h.1]; decide
  · rw [h.1]

/-- C2: a line whose payload after the `data: ` prefix fails to parse is
skipped individually — it leaves the accumulator unchanged wherever it
stands, so the run over the stream with the malformed frame equals the run
without it, and the subsequent valid deltas accumulate untouched. -/
theorem malformed_frame_skipped (st : StreamAcc) (l : String)
    (pre post : List String)
    (hdata : "data: ".data.isPrefixOf l.data = true)
    (hbad : parseJson (String.mk (l.data.drop 6)) = none) :
    processLine st l = st ∧
    (pre ++ l :: post).foldl processLine st = (pre ++ post).foldl processLine st := by
  have hdec : decodeLine l = none := by
    unfold decodeLine
    simp [hdata, hbad]
  have hskip : ∀ s : StreamAcc, processLine s l = s := fun s =>
    processLine_of_decode_none s l hdec
  refine ⟨hskip st, ?_⟩
  have hsplit : pre ++ l :: post = (pre ++ [l]) ++ post := by simp
  rw [hsplit, List.foldl_append, List.foldl_append, List.foldl_append]
  simp [hskip]

/-- C2 witness: the malformed frame `data: \x7boops` between two valid delta
frames is skipped and the deltas around it still accumulate to `"AB"`. -/
theorem malformed_frame_skipped_witness :
    processLine initAcc "data: \x7boops" = initAcc ∧
    (["data: \x7b\"delta\":\"A\"\x7d"] ++ "data: \x7boops" ::
        ["data: \x7b\"delta\":\"B\"\x7d"]).foldl processLine initAcc =
      (["data: \x7b\"delta\":\"A\"\x7d"] ++
        ["data: \x7b\"delta\":\"B\"\x7d"]).foldl processLine initAcc ∧
    ((["data: \x7b\"delta\":\"A\"\x7d"] ++ "data: \x7boops" ::
        ["data: \x7b\"delta\":\"B\"\x7d"]).foldl processLine initAcc).fullContent
      = "AB" := by
  have h := malformed_frame_skipped initAcc "data: \x7boops"
    ["data: \x7b\"delta\":\"A\"\x7d"] ["data: \x7b\"delta\":\"B\"\x7d"]
    (by decide) (by decide)
  exact ⟨h.1, h.2, by decide⟩

/-- C9: the continuation token is captured from the first frame carrying a
non-empty id — the read loop returns that id as `chatId`, whatever ids
later frames carry. -/
theorem chatId_first_nonempty_id (chunks : List String)
    (objs : List (List (String × String))) (i : String)
    (hdec : List.Forall₂ DecodesTo (chunks.flatMap linesOf) objs)
    (hid : objs.findSome? idOf = some i) :
    (processChunks chunks).chatId = some i := by
  rw [processChunks_spec chunks objs hdec]
  exact hid

/-- C9 witness: with ids `"c1"` then `"c2"` in the stream, the loop keeps
`"c1"` and the later id is ignored. -/
theorem chatId_first_nonempty_id_witness :
    (processChunks ["data: \x7b\"id\":\"c1\"\x7d\n", "data: \x7b\"id\":\"c2\"\x7d\n",
        "data: \x7b\"delta\":\"x\"\x7d\n"]).chatId = some "c1" ∧
    processChunks ["data: \x7b\"id\":\"c1\"\x7d\n", "data: \x7b\"id\":\"c2\"\x7d\n",
        "data: \x7b\"delta\":\"x\"\x7d\n"] =
      { fullContent := "x", chatId := some "c1" } := by
  refine ⟨chatId_first_nonempty_id _
    [[("id", "c1")], [("id", "c2")], [("delta", "x")]] "c1"
    (forall₂_of_map_decode _ _ (by decide)) (by decide), by decide⟩

/-- C10: chunk parsing carries no partial-line buffer: two adjacent chunks
none of whose lines decodes — as happens to the two fragments of a frame
split across a chunk boundary, which fail the prefix test or the JSON
parse — contribute nothing, and the run equals the run without them, so
the split frame's delta is lost while whole-chunk frames are unaffected. -/
theorem no_cross_chunk_buffering (st : StreamAcc) (a b : String)
    (pre post : List String)
    (ha : ∀ l ∈ linesOf a, decodeLine l = none)
    (hb : ∀ l ∈ linesOf b, decodeLine l = none) :
    processChunksFrom st (pre ++ a :: b :: post) = processChunksFrom st (pre ++ post) := by
  unfold processChunksFrom
  have hsplit : pre ++ a :: b :: post = (pre ++ [a, b]) ++ post := by simp
  rw [hsplit, List.foldl_append, List.foldl_append, List.foldl_append]
  simp [show ∀ s, chunkStep s a = s from fun s => chunkStep_of_none s a ha,
    show ∀ s, chunkStep s b = s from fun s => chunkStep_of_none s b hb]

/-- C10 witness: the frame `data: \x7b"delta":"B"\x7d` split as
`data: \x7b"del` / `ta":"B"\x7d` across two chunks is lost, while the
whole-chunk frames still accumulate: the content is `"AC"`. -/
theorem no_cross_chunk_buffering_witness :
    processChunksFrom initAcc
        (["data: \x7b\"delta\":\"A\"\x7d"] ++ "data: \x7b\"del" :: "ta\":\"B\"\x7d" ::
          ["data: \x7b\"delta\":\"C\"\x7d"]) =
      processChunksFrom initAcc
        (["data: \x7b\"delta\":\"A\"\x7d"] ++ ["data: \x7b\"delta\":\"C\"\x7d"]) ∧
    (processChunks ["data: \x7b\"delta\":\"A\"\x7d", "data: \x7b\"del",
        "ta\":\"B\"\x7d", "data: \x7b\"delta\":\"C\"\x7d"]).fullContent = "AC" := by
  exact ⟨no_cross_chunk_buffering initAcc "data: \x7b\"del" "ta\":\"B\"\x7d"
    ["data: \x7b\"delta\":\"A\"\x7d"] ["data: \x7b\"delta\":\"C\"\x7d"]
    (by decide) (by decide), by decide⟩

end VapiWidget

